import Mathlib

/-!
# MonGuard compliance contracts — shallow embedding and verification

This file embeds the core MonGuard Solidity contracts
(`RiskRegistry`, `ComplianceOracle`, `TransactionMonitor`,
`ComplianceEnforcement`, `RegulatoryNFT`) as pure Lean functions over
explicit state records, and proves properties of the embedded code.

Modelling conventions:
* `address` is modelled as `Nat`; `0` plays the role of `address(0)`.
* Solidity mappings are total functions returning the zero-initialised
  default struct, exactly as EVM storage does.
* `block.timestamp` is an explicit `now : Nat` argument (seconds);
  `1 days` is `86400`.
* A reverting call is `none`; success is `some newState`.  A revert
  leaves state unchanged by construction (the old state is still in
  the caller's hands).
* `keccak256(abi.encodePacked(...))` identifiers are modelled by their
  pre-image tuples (a collision-free abstraction of the hash: equal
  pre-images give equal hashes, which is the only property used here).
* `onlyRole` gates are outside the claims considered here; callers are
  assumed authorized, and `msg.sender` is an explicit `sender` argument
  where the contract stores it.
-/

/-- An EVM address, modelled as a natural number (`0` = `address(0)`). -/
abbrev Addr := Nat

/-! ## RiskRegistry -/

/-- `RiskRegistry.RiskLevel` enum. -/
inductive RiskLevel
  | NONE
  | LOW
  | MEDIUM
  | HIGH
  | CRITICAL
deriving DecidableEq, Repr

/-- `RiskRegistry.RiskAssessment` struct. -/
structure RiskAssessment where
  level : RiskLevel
  score : Nat
  timestamp : Nat
  reason : String
  assessor : Addr
  active : Bool
deriving DecidableEq, Repr

/-- Zero-initialised `RiskAssessment`, the mapping default. -/
def RiskAssessment.default0 : RiskAssessment :=
  { level := .NONE, score := 0, timestamp := 0, reason := "",
    assessor := 0, active := false }

/-- Storage of the `RiskRegistry` contract. -/
structure RiskRegistry where
  riskAssessments : Addr → RiskAssessment
  addressesByRisk : RiskLevel → List Addr
  totalAssessments : Nat

/-- Freshly deployed `RiskRegistry`. -/
def RiskRegistry.init : RiskRegistry :=
  { riskAssessments := fun _ => RiskAssessment.default0,
    addressesByRisk := fun _ => [],
    totalAssessments := 0 }

/-- `RiskRegistry._scoreToLevel`: the fixed score→level table. -/
def scoreToLevel (score : Nat) : RiskLevel :=
  if 90 ≤ score then .CRITICAL
  else if 70 ≤ score then .HIGH
  else if 40 ≤ score then .MEDIUM
  else if 10 ≤ score then .LOW
  else .NONE

/-- The storage writes of `RiskRegistry.assessRisk` (after the requires). -/
def RiskRegistry.assessRiskWrite (st : RiskRegistry) (sender target : Addr)
    (level : RiskLevel) (score : Nat) (reason : String) (now : Nat) :
    RiskRegistry :=
  let old := st.riskAssessments target
  let updated : RiskAssessment :=
    { level := level, score := score, timestamp := now,
      reason := reason, assessor := sender, active := true }
  { riskAssessments := fun a => if a = target then updated else st.riskAssessments a,
    addressesByRisk := fun l =>
      if l = level then st.addressesByRisk l ++ [target] else st.addressesByRisk l,
    totalAssessments :=
      if old.level = .NONE then st.totalAssessments + 1 else st.totalAssessments }

/-- `RiskRegistry.assessRisk`.  Reverts (`none`) when the target is the
zero address, the score exceeds 100, or the reason is empty; otherwise
overwrites the live assessment with the caller-supplied level and score. -/
def RiskRegistry.assessRisk (st : RiskRegistry) (sender target : Addr)
    (level : RiskLevel) (score : Nat) (reason : String) (now : Nat) :
    Option RiskRegistry :=
  if target = 0 then none
  else if 100 < score then none
  else if reason.length = 0 then none
  else some (st.assessRiskWrite sender target level score reason now)

/-- `RiskRegistry.updateRiskScore`: requires an active assessment,
recomputes the level from the new score via `scoreToLevel`. -/
def RiskRegistry.updateRiskScore (st : RiskRegistry) (target : Addr)
    (newScore now : Nat) : Option RiskRegistry :=
  if 100 < newScore then none
  else
    let assessment := st.riskAssessments target
    if assessment.active = false then none
    else
      let oldLevel := assessment.level
      let newLevel := scoreToLevel newScore
      let base : RiskAssessment :=
        { assessment with score := newScore, timestamp := now }
      if newLevel ≠ oldLevel then
        some { st with
          riskAssessments := fun a =>
            if a = target then { base with level := newLevel } else st.riskAssessments a,
          addressesByRisk := fun l =>
            if l = newLevel then st.addressesByRisk l ++ [target] else st.addressesByRisk l }
      else
        some { st with
          riskAssessments := fun a =>
            if a = target then base else st.riskAssessments a }

/-- `RiskRegistry.getRiskLevel`: stored level if active, else `NONE`. -/
def RiskRegistry.getRiskLevel (st : RiskRegistry) (target : Addr) : RiskLevel :=
  if (st.riskAssessments target).active then (st.riskAssessments target).level
  else .NONE

/-- `RiskRegistry.getRiskScore`: stored score if active, else `0`. -/
def RiskRegistry.getRiskScore (st : RiskRegistry) (target : Addr) : Nat :=
  if (st.riskAssessments target).active then (st.riskAssessments target).score
  else 0

/-- `RiskRegistry.isHighRisk`: active and level `HIGH` or `CRITICAL`. -/
def RiskRegistry.isHighRisk (st : RiskRegistry) (target : Addr) : Bool :=
  (st.riskAssessments target).active &&
    ((st.riskAssessments target).level = RiskLevel.HIGH ||
     (st.riskAssessments target).level = RiskLevel.CRITICAL)

/-! ## ComplianceOracle -/

/-- `ComplianceOracle.DataSource` struct. -/
structure DataSource where
  name : String
  endpoint : String
  lastUpdate : Nat
  active : Bool
deriving DecidableEq, Repr

/-- Zero-initialised `DataSource`, the mapping default (inactive). -/
def DataSource.default0 : DataSource :=
  { name := "", endpoint := "", lastUpdate := 0, active := false }

/-- A data-source id: `keccak256(abi.encodePacked(name, block.timestamp))`
modelled by its pre-image `(name, timestamp)`. -/
abbrev SourceId := String × Nat

/-- Storage of the `ComplianceOracle` contract (the fields the claims
touch; the per-account `complianceChecks` cache is not consulted by any
operation embedded here). -/
structure ComplianceOracle where
  sanctionedAddresses : Addr → Bool
  sanctionedJurisdictions : String → Bool
  dataSources : SourceId → DataSource
  dataSourceIds : List SourceId

/-- Freshly deployed `ComplianceOracle`. -/
def ComplianceOracle.init : ComplianceOracle :=
  { sanctionedAddresses := fun _ => false,
    sanctionedJurisdictions := fun _ => false,
    dataSources := fun _ => DataSource.default0,
    dataSourceIds := [] }

/-- `ComplianceOracle.registerDataSource`: stores an active source under
the generated id and returns the id. -/
def ComplianceOracle.registerDataSource (st : ComplianceOracle)
    (name endpoint : String) (now : Nat) : SourceId × ComplianceOracle :=
  let sourceId : SourceId := (name, now)
  (sourceId,
   { st with
     dataSources := fun i =>
       if i = sourceId then
         { name := name, endpoint := endpoint, lastUpdate := now, active := true }
       else st.dataSources i,
     dataSourceIds := st.dataSourceIds ++ [sourceId] })

/-- `ComplianceOracle.isSanctioned`: the long-lived sanction flag. -/
def ComplianceOracle.isSanctioned (st : ComplianceOracle) (target : Addr) : Bool :=
  st.sanctionedAddresses target

/-- The sanction-flag write of `ComplianceOracle.sanctionAddress`. -/
def ComplianceOracle.setSanctionFlag (st : ComplianceOracle) (target : Addr) :
    ComplianceOracle :=
  { st with
    sanctionedAddresses := fun a =>
      if a = target then true else st.sanctionedAddresses a }

/-- `ComplianceOracle.sanctionAddress`: requires a non-zero target and an
active data source; sets the sanction flag and synchronously calls
`RiskRegistry.assessRisk(target, CRITICAL, 100, reason)`.  The whole call
reverts (`none`) if that nested call reverts. -/
def ComplianceOracle.sanctionAddress (st : ComplianceOracle) (reg : RiskRegistry)
    (sender target : Addr) (dataSourceId : SourceId) (reason : String) (now : Nat) :
    Option (ComplianceOracle × RiskRegistry) :=
  if target = 0 then none
  else if (st.dataSources dataSourceId).active = false then none
  else
    (reg.assessRisk sender target .CRITICAL 100 reason now).map
      (fun reg2 => (st.setSanctionFlag target, reg2))

/-! ## TransactionMonitor -/

/-- `TransactionMonitor.PatternType` enum. -/
inductive PatternType
  | NORMAL
  | STRUCTURING
  | RAPID_MOVEMENT
  | MIXING
  | HIGH_VOLUME
  | SANCTION_INTERACTION
deriving DecidableEq, Repr

/-- `TransactionMonitor.AlertSeverity` enum. -/
inductive AlertSeverity
  | INFO
  | LOW
  | MEDIUM
  | HIGH
  | CRITICAL
deriving DecidableEq, Repr

/-- A `bytes32` transaction hash, modelled as an opaque natural number. -/
abbrev TxId := Nat

/-- `TransactionMonitor.TransactionAnalysis` struct (`from`/`to` are Lean
keywords, so the fields are named `fromAddr`/`toAddr`). -/
structure TransactionAnalysis where
  txHash : TxId
  fromAddr : Addr
  toAddr : Addr
  amount : Nat
  pattern : PatternType
  severity : AlertSeverity
  anomalyScore : Nat
  timestamp : Nat
  flagged : Bool
  notes : String
deriving DecidableEq, Repr

/-- Zero-initialised `TransactionAnalysis`, the mapping default. -/
def TransactionAnalysis.default0 : TransactionAnalysis :=
  { txHash := 0, fromAddr := 0, toAddr := 0, amount := 0,
    pattern := .NORMAL, severity := .INFO, anomalyScore := 0,
    timestamp := 0, flagged := false, notes := "" }

/-- `TransactionMonitor.Alert` struct. -/
structure Alert where
  id : Nat
  target : Addr
  pattern : PatternType
  severity : AlertSeverity
  description : String
  timestamp : Nat
  resolved : Bool
  resolver : Addr
deriving DecidableEq, Repr

/-- Zero-initialised `Alert`, the mapping default. -/
def Alert.default0 : Alert :=
  { id := 0, target := 0, pattern := .NORMAL, severity := .INFO,
    description := "", timestamp := 0, resolved := false, resolver := 0 }

/-- Storage of the `TransactionMonitor` contract. -/
structure TransactionMonitor where
  transactionAnalyses : TxId → TransactionAnalysis
  addressTransactions : Addr → List TxId
  alerts : Nat → Alert
  alertCounter : Nat
  flaggedTransactionCount : Nat
  highRiskThreshold : Nat
  criticalRiskThreshold : Nat

/-- Freshly deployed `TransactionMonitor` (thresholds 70 / 90). -/
def TransactionMonitor.init : TransactionMonitor :=
  { transactionAnalyses := fun _ => TransactionAnalysis.default0,
    addressTransactions := fun _ => [],
    alerts := fun _ => Alert.default0,
    alertCounter := 0,
    flaggedTransactionCount := 0,
    highRiskThreshold := 70,
    criticalRiskThreshold := 90 }

/-- `TransactionMonitor._scoreToRiskLevel` (textually identical to
`RiskRegistry._scoreToLevel`). -/
def scoreToRiskLevel (score : Nat) : RiskLevel :=
  if 90 ≤ score then .CRITICAL
  else if 70 ≤ score then .HIGH
  else if 40 ≤ score then .MEDIUM
  else if 10 ≤ score then .LOW
  else .NONE

/-- `TransactionMonitor._calculateSeverity`: fixed precedence table,
highest severity wins. -/
def TransactionMonitor.calculateSeverity (st : TransactionMonitor)
    (score : Nat) (pattern : PatternType) : AlertSeverity :=
  if pattern = .SANCTION_INTERACTION ∨ st.criticalRiskThreshold ≤ score then .CRITICAL
  else if pattern = .MIXING ∨ st.highRiskThreshold ≤ score then .HIGH
  else if pattern = .RAPID_MOVEMENT ∨ 50 ≤ score then .MEDIUM
  else if pattern ≠ .NORMAL ∨ 25 ≤ score then .LOW
  else .INFO

/-- `TransactionMonitor._createAlert`: bumps the counter and stores a new
unresolved alert under it. -/
def TransactionMonitor.createAlert (st : TransactionMonitor) (target : Addr)
    (pattern : PatternType) (severity : AlertSeverity) (description : String)
    (now : Nat) : TransactionMonitor :=
  let c := st.alertCounter + 1
  { st with
    alertCounter := c,
    alerts := fun i =>
      if i = c then
        { id := c, target := target, pattern := pattern, severity := severity,
          description := description, timestamp := now, resolved := false,
          resolver := 0 }
      else st.alerts i }

/-- `TransactionMonitor._updateRiskScores`: writes the integer average of
the sender's current score and the anomaly score into the risk registry,
then — if the receiver is sanctioned — a second write forcing
CRITICAL/100 on the sender. -/
def TransactionMonitor.updateRiskScores (orc : ComplianceOracle)
    (reg : RiskRegistry) (self fromAddr toAddr : Addr)
    (anomalyScore now : Nat) : Option RiskRegistry :=
  let newFromRisk := (reg.getRiskScore fromAddr + anomalyScore) / 2
  (reg.assessRisk self fromAddr (scoreToRiskLevel newFromRisk) newFromRisk
      "Automated risk update from transaction monitoring" now).bind
    (fun reg1 =>
      if orc.isSanctioned toAddr then
        reg1.assessRisk self fromAddr .CRITICAL 100
          "Interaction with sanctioned address" now
      else some reg1)

/-- The analysis/index writes of `TransactionMonitor.analyzeTransaction`:
store the analysis under its hash (overwriting any previous entry) and
push the hash onto both parties' transaction lists. -/
def TransactionMonitor.writeAnalysis (st : TransactionMonitor) (txHash : TxId)
    (analysis : TransactionAnalysis) (fromAddr toAddr : Addr) :
    TransactionMonitor :=
  let pushFrom : Addr → List TxId := fun a =>
    if a = fromAddr then st.addressTransactions a ++ [txHash]
    else st.addressTransactions a
  { st with
    transactionAnalyses := fun h =>
      if h = txHash then analysis else st.transactionAnalyses h,
    addressTransactions := fun a =>
      if a = toAddr then pushFrom a ++ [txHash] else pushFrom a }

/-- `TransactionMonitor.analyzeTransaction`: validates the anomaly score,
computes severity and the flagged bit, records the analysis (overwriting
any entry already stored under `txHash`), and — when flagged — bumps the
flagged counter, raises an alert for the sender, and folds risk back into
the registry via `updateRiskScores`. -/
def TransactionMonitor.analyzeTransaction (st : TransactionMonitor)
    (orc : ComplianceOracle) (reg : RiskRegistry) (self : Addr)
    (txHash : TxId) (fromAddr toAddr : Addr) (amount : Nat)
    (pattern : PatternType) (anomalyScore : Nat) (notes : String) (now : Nat) :
    Option (TransactionMonitor × RiskRegistry) :=
  if 100 < anomalyScore then none
  else
    let severity := st.calculateSeverity anomalyScore pattern
    let flagged : Bool :=
      decide (st.highRiskThreshold ≤ anomalyScore ∨ pattern ≠ PatternType.NORMAL)
    let analysis : TransactionAnalysis :=
      { txHash := txHash, fromAddr := fromAddr, toAddr := toAddr,
        amount := amount, pattern := pattern, severity := severity,
        anomalyScore := anomalyScore, timestamp := now, flagged := flagged,
        notes := notes }
    let st1 := st.writeAnalysis txHash analysis fromAddr toAddr
    if flagged then
      let st2 := { st1 with flaggedTransactionCount := st1.flaggedTransactionCount + 1 }
      let st3 := st2.createAlert fromAddr pattern severity notes now
      (TransactionMonitor.updateRiskScores orc reg self fromAddr toAddr
          anomalyScore now).map (fun reg2 => (st3, reg2))
    else
      some (st1, reg)

/-! ## ComplianceEnforcement -/

/-- `ComplianceEnforcement.EnforcementAction` enum. -/
inductive EnforcementAction
  | NONE
  | WARN
  | DELAY
  | LIMIT
  | BLOCK
  | FREEZE
deriving DecidableEq, Repr

/-- `ComplianceEnforcement.AccountStatus` struct. -/
structure AccountStatus where
  frozen : Bool
  whitelisted : Bool
  defaultAction : EnforcementAction
  dailyLimit : Nat
  dailySpent : Nat
  lastResetTimestamp : Nat
  freezeTimestamp : Nat
  freezeInitiator : Addr
  freezeReason : String
deriving DecidableEq, Repr

/-- Zero-initialised `AccountStatus`, the mapping default. -/
def AccountStatus.default0 : AccountStatus :=
  { frozen := false, whitelisted := false, defaultAction := .NONE,
    dailyLimit := 0, dailySpent := 0, lastResetTimestamp := 0,
    freezeTimestamp := 0, freezeInitiator := 0, freezeReason := "" }

/-- A delayed-transaction id:
`keccak256(abi.encodePacked(from, to, amount, block.timestamp))`
modelled by its pre-image `(from, to, amount, timestamp)`. -/
abbrev DelayedTxId := Addr × Addr × Nat × Nat

/-- `ComplianceEnforcement.DelayedTransaction` struct (`data` payload as a
byte list). -/
structure DelayedTransaction where
  txId : DelayedTxId
  fromAddr : Addr
  toAddr : Addr
  amount : Nat
  data : List Nat
  delayUntil : Nat
  executed : Bool
  approved : Bool
  reviewer : Addr
deriving DecidableEq, Repr

/-- Zero-initialised `DelayedTransaction`, the mapping default. -/
def DelayedTransaction.default0 : DelayedTransaction :=
  { txId := (0, 0, 0, 0), fromAddr := 0, toAddr := 0, amount := 0,
    data := [], delayUntil := 0, executed := false, approved := false,
    reviewer := 0 }

/-- Storage of the `ComplianceEnforcement` contract. -/
structure ComplianceEnforcement where
  accountStatuses : Addr → AccountStatus
  delayedTransactions : DelayedTxId → DelayedTransaction
  accountDelayedTxs : Addr → List DelayedTxId
  defaultDailyLimit : Nat
  delayPeriod : Nat
  enforcementEnabled : Bool

/-- Freshly deployed `ComplianceEnforcement`
(`defaultDailyLimit = 1000 ether`, `delayPeriod = 24 hours`,
enforcement enabled). -/
def ComplianceEnforcement.init : ComplianceEnforcement :=
  { accountStatuses := fun _ => AccountStatus.default0,
    delayedTransactions := fun _ => DelayedTransaction.default0,
    accountDelayedTxs := fun _ => [],
    defaultDailyLimit := 1000 * 10 ^ 18,
    delayPeriod := 86400,
    enforcementEnabled := true }

/-- `ComplianceEnforcement._checkDailyLimit`: true when the transfer
would exceed the effective daily limit.  Effective limit is the account's
own `dailyLimit` when positive, else the global default; once a full day
has passed since `lastResetTimestamp` only the amount itself counts. -/
def ComplianceEnforcement.checkDailyLimit (st : ComplianceEnforcement)
    (account : Addr) (amount now : Nat) : Bool :=
  let status := st.accountStatuses account
  let limit := if 0 < status.dailyLimit then status.dailyLimit else st.defaultDailyLimit
  if status.lastResetTimestamp + 86400 ≤ now then
    decide (limit < amount)
  else
    decide (limit < status.dailySpent + amount)

/-- `ComplianceEnforcement.checkTransaction`: the pure decision function,
checks evaluated in source order, first match wins. -/
def ComplianceEnforcement.checkTransaction (st : ComplianceEnforcement)
    (orc : ComplianceOracle) (reg : RiskRegistry)
    (fromAddr toAddr : Addr) (amount now : Nat) :
    Bool × EnforcementAction × String :=
  if st.enforcementEnabled = false then (true, .NONE, "")
  else
    let fromStatus := st.accountStatuses fromAddr
    let toStatus := st.accountStatuses toAddr
    if fromStatus.whitelisted then (true, .NONE, "Whitelisted")
    else if fromStatus.frozen then (false, .FREEZE, "Account frozen")
    else if toStatus.frozen then (false, .BLOCK, "Recipient frozen")
    else if orc.isSanctioned fromAddr then (false, .FREEZE, "Sender sanctioned")
    else if orc.isSanctioned toAddr then (false, .BLOCK, "Recipient sanctioned")
    else
      let fromRisk := reg.getRiskLevel fromAddr
      let toRisk := reg.getRiskLevel toAddr
      if fromRisk = .CRITICAL then (false, .FREEZE, "Critical risk - sender")
      else if toRisk = .CRITICAL then (false, .BLOCK, "Critical risk - recipient")
      else if fromRisk = .HIGH then (false, .DELAY, "High risk - requires review")
      else if st.checkDailyLimit fromAddr amount now then
        (false, .LIMIT, "Daily limit exceeded")
      else (true, .NONE, "")

/-- `ComplianceEnforcement.freezeAccount`: reverts when already frozen;
otherwise records the freeze with its metadata.  The whitelist flag is
not touched. -/
def ComplianceEnforcement.freezeAccount (st : ComplianceEnforcement)
    (sender account : Addr) (reason : String) (now : Nat) :
    Option ComplianceEnforcement :=
  if (st.accountStatuses account).frozen then none
  else
    some { st with
      accountStatuses := fun a =>
        if a = account then
          { st.accountStatuses account with
            frozen := true, freezeTimestamp := now,
            freezeInitiator := sender, freezeReason := reason }
        else st.accountStatuses a }

/-- `ComplianceEnforcement.unfreezeAccount`: reverts when not frozen. -/
def ComplianceEnforcement.unfreezeAccount (st : ComplianceEnforcement)
    (account : Addr) : Option ComplianceEnforcement :=
  if (st.accountStatuses account).frozen = false then none
  else
    some { st with
      accountStatuses := fun a =>
        if a = account then { st.accountStatuses account with frozen := false }
        else st.accountStatuses a }

/-- `ComplianceEnforcement.whitelistAccount`: unconditionally sets the
whitelist flag. -/
def ComplianceEnforcement.whitelistAccount (st : ComplianceEnforcement)
    (account : Addr) : ComplianceEnforcement :=
  { st with
    accountStatuses := fun a =>
      if a = account then { st.accountStatuses account with whitelisted := true }
      else st.accountStatuses a }

/-- `ComplianceEnforcement.setDailyLimit`. -/
def ComplianceEnforcement.setDailyLimit (st : ComplianceEnforcement)
    (account : Addr) (limit : Nat) : ComplianceEnforcement :=
  { st with
    accountStatuses := fun a =>
      if a = account then { st.accountStatuses account with dailyLimit := limit }
      else st.accountStatuses a }

/-- `ComplianceEnforcement.recordSpending`: rolls the daily window over
when a full day has elapsed, then adds the amount. -/
def ComplianceEnforcement.recordSpending (st : ComplianceEnforcement)
    (account : Addr) (amount now : Nat) : ComplianceEnforcement :=
  let status := st.accountStatuses account
  let status2 :=
    if status.lastResetTimestamp + 86400 ≤ now then
      { status with dailySpent := amount, lastResetTimestamp := now }
    else
      { status with dailySpent := status.dailySpent + amount }
  { st with
    accountStatuses := fun a => if a = account then status2 else st.accountStatuses a }

/-- `ComplianceEnforcement.createDelayedTransaction`: derives the id from
`(from, to, amount, block.timestamp)`, stores a fresh unapproved,
unexecuted record under it (overwriting any record already there), and
appends the id to the sender's index. -/
def ComplianceEnforcement.createDelayedTransaction (st : ComplianceEnforcement)
    (fromAddr toAddr : Addr) (amount : Nat) (data : List Nat) (now : Nat) :
    DelayedTxId × ComplianceEnforcement :=
  let txId : DelayedTxId := (fromAddr, toAddr, amount, now)
  let dtx : DelayedTransaction :=
    { txId := txId, fromAddr := fromAddr, toAddr := toAddr, amount := amount,
      data := data, delayUntil := now + st.delayPeriod, executed := false,
      approved := false, reviewer := 0 }
  (txId,
   { st with
     delayedTransactions := fun i =>
       if i = txId then dtx else st.delayedTransactions i,
     accountDelayedTxs := fun a =>
       if a = fromAddr then st.accountDelayedTxs a ++ [txId]
       else st.accountDelayedTxs a })

/-- `ComplianceEnforcement.approveDelayedTransaction`: reverts when the
record is already executed or already approved. -/
def ComplianceEnforcement.approveDelayedTransaction (st : ComplianceEnforcement)
    (sender : Addr) (txId : DelayedTxId) : Option ComplianceEnforcement :=
  let dtx := st.delayedTransactions txId
  if dtx.executed then none
  else if dtx.approved then none
  else
    some { st with
      delayedTransactions := fun i =>
        if i = txId then { dtx with approved := true, reviewer := sender }
        else st.delayedTransactions i }

/-- `ComplianceEnforcement.executeDelayedTransaction`: reverts unless
approved, not yet executed, and `now ≥ delayUntil`; then flips the
terminal `executed` flag. -/
def ComplianceEnforcement.executeDelayedTransaction (st : ComplianceEnforcement)
    (txId : DelayedTxId) (now : Nat) : Option ComplianceEnforcement :=
  let dtx := st.delayedTransactions txId
  if dtx.approved = false then none
  else if dtx.executed then none
  else if now < dtx.delayUntil then none
  else
    some { st with
      delayedTransactions := fun i =>
        if i = txId then { dtx with executed := true }
        else st.delayedTransactions i }

/-! ## RegulatoryNFT -/

/-- `RegulatoryNFT.ReportType` enum. -/
inductive ReportType
  | SUSPICIOUS_ACTIVITY
  | COMPLIANCE_AUDIT
  | RISK_ASSESSMENT
  | TRANSACTION_REVIEW
  | KYC_VERIFICATION
  | SANCTION_SCREENING
deriving DecidableEq, Repr

/-- `RegulatoryNFT.ReportStatus` enum. -/
inductive ReportStatus
  | DRAFT
  | SUBMITTED
  | UNDER_REVIEW
  | APPROVED
  | REJECTED
  | ARCHIVED
deriving DecidableEq, Repr

/-- `RegulatoryNFT.ComplianceReport` struct (`dataHash` is a `bytes32`
modelled as `Nat`, `0` standing for `bytes32(0)`). -/
structure ComplianceReport where
  tokenId : Nat
  reportType : ReportType
  status : ReportStatus
  subject : Addr
  issuer : Addr
  timestamp : Nat
  reviewTimestamp : Nat
  reviewer : Addr
  ipfsHash : String
  dataHash : Nat
  isSealed : Bool
deriving DecidableEq, Repr

/-- Zero-initialised `ComplianceReport`, the mapping default. -/
def ComplianceReport.default0 : ComplianceReport :=
  { tokenId := 0, reportType := .SUSPICIOUS_ACTIVITY, status := .DRAFT,
    subject := 0, issuer := 0, timestamp := 0, reviewTimestamp := 0,
    reviewer := 0, ipfsHash := "", dataHash := 0, isSealed := false }

/-- Storage of the `RegulatoryNFT` contract.  `owners` is the ERC721
`ownerOf` view (`none` = nonexistent token, whose `ownerOf` reverts);
token URIs are display metadata and are not modelled. -/
structure RegulatoryNFT where
  reports : Nat → ComplianceReport
  owners : Nat → Option Addr
  subjectReports : Addr → List Nat
  issuerReports : Addr → List Nat
  tokenIdCounter : Nat

/-- Freshly deployed `RegulatoryNFT`. -/
def RegulatoryNFT.init : RegulatoryNFT :=
  { reports := fun _ => ComplianceReport.default0,
    owners := fun _ => none,
    subjectReports := fun _ => [],
    issuerReports := fun _ => [],
    tokenIdCounter := 0 }

/-- `RegulatoryNFT.createReport`: validates inputs, mints the next token
id to the caller, and stores a fresh `DRAFT` report under it. -/
def RegulatoryNFT.createReport (st : RegulatoryNFT) (sender : Addr)
    (reportType : ReportType) (subject : Addr) (ipfsHash : String)
    (dataHash : Nat) (now : Nat) : Option (Nat × RegulatoryNFT) :=
  if subject = 0 then none
  else if ipfsHash.length = 0 then none
  else if dataHash = 0 then none
  else
    let tokenId := st.tokenIdCounter + 1
    let report : ComplianceReport :=
      { tokenId := tokenId, reportType := reportType, status := .DRAFT,
        subject := subject, issuer := sender, timestamp := now,
        reviewTimestamp := 0, reviewer := 0, ipfsHash := ipfsHash,
        dataHash := dataHash, isSealed := false }
    some (tokenId,
      { st with
        tokenIdCounter := tokenId,
        owners := fun i => if i = tokenId then some sender else st.owners i,
        reports := fun i => if i = tokenId then report else st.reports i,
        subjectReports := fun a =>
          if a = subject then st.subjectReports a ++ [tokenId] else st.subjectReports a,
        issuerReports := fun a =>
          if a = sender then st.issuerReports a ++ [tokenId] else st.issuerReports a })

/-- `RegulatoryNFT.submitReport`: owner only, `DRAFT` only, unsealed only;
moves the report to `SUBMITTED`. -/
def RegulatoryNFT.submitReport (st : RegulatoryNFT) (sender : Addr)
    (tokenId : Nat) : Option RegulatoryNFT :=
  let report := st.reports tokenId
  if st.owners tokenId ≠ some sender then none
  else if report.status ≠ .DRAFT then none
  else if report.isSealed then none
  else
    some { st with
      reports := fun i =>
        if i = tokenId then { report with status := .SUBMITTED }
        else st.reports i }

/-- `RegulatoryNFT.reviewReport`: requires `SUBMITTED` or `UNDER_REVIEW`
and unsealed; records the reviewer verdict. -/
def RegulatoryNFT.reviewReport (st : RegulatoryNFT) (sender : Addr)
    (tokenId : Nat) (approved : Bool) (now : Nat) : Option RegulatoryNFT :=
  let report := st.reports tokenId
  if ¬ (report.status = .SUBMITTED ∨ report.status = .UNDER_REVIEW) then none
  else if report.isSealed then none
  else
    some { st with
      reports := fun i =>
        if i = tokenId then
          { report with
            status := if approved then .APPROVED else .REJECTED,
            reviewer := sender, reviewTimestamp := now }
        else st.reports i }

/-- `RegulatoryNFT.sealReport`: requires status exactly `APPROVED` and
not already sealed; sets the irreversible `isSealed` flag. -/
def RegulatoryNFT.sealReport (st : RegulatoryNFT) (tokenId : Nat) :
    Option RegulatoryNFT :=
  let report := st.reports tokenId
  if report.status ≠ .APPROVED then none
  else if report.isSealed then none
  else
    some { st with
      reports := fun i =>
        if i = tokenId then { report with isSealed := true }
        else st.reports i }

/-- `RegulatoryNFT.updateReportData`: owner only, unsealed only, non-empty
new IPFS hash; replaces the content reference and digest. -/
def RegulatoryNFT.updateReportData (st : RegulatoryNFT) (sender : Addr)
    (tokenId : Nat) (newIpfsHash : String) (newDataHash : Nat) :
    Option RegulatoryNFT :=
  let report := st.reports tokenId
  if st.owners tokenId ≠ some sender then none
  else if report.isSealed then none
  else if newIpfsHash.length = 0 then none
  else
    some { st with
      reports := fun i =>
        if i = tokenId then
          { report with ipfsHash := newIpfsHash, dataHash := newDataHash }
        else st.reports i }

/-! ## Spec-side definitions (for refinement comparison) -/

/-- Modelled from the spec: the §4.4 `checkTransaction` precedence list,
written from the spec's own words (first match wins), to be compared with
the source-derived `ComplianceEnforcement.checkTransaction`. -/
def checkTransactionSpec (st : ComplianceEnforcement) (orc : ComplianceOracle)
    (reg : RiskRegistry) (fromAddr toAddr : Addr) (amount now : Nat) :
    Bool × EnforcementAction × String :=
  if ¬ st.enforcementEnabled then (true, .NONE, "")
  else if (st.accountStatuses fromAddr).whitelisted then (true, .NONE, "Whitelisted")
  else if (st.accountStatuses fromAddr).frozen then (false, .FREEZE, "Account frozen")
  else if (st.accountStatuses toAddr).frozen then (false, .BLOCK, "Recipient frozen")
  else if orc.isSanctioned fromAddr then (false, .FREEZE, "Sender sanctioned")
  else if orc.isSanctioned toAddr then (false, .BLOCK, "Recipient sanctioned")
  else if reg.getRiskLevel fromAddr = .CRITICAL then (false, .FREEZE, "Critical risk - sender")
  else if reg.getRiskLevel toAddr = .CRITICAL then (false, .BLOCK, "Critical risk - recipient")
  else if reg.getRiskLevel fromAddr = .HIGH then (false, .DELAY, "High risk - requires review")
  else if st.checkDailyLimit fromAddr amount now then (false, .LIMIT, "Daily limit exceeded")
  else (true, .NONE, "")

/-- Modelled from the spec: the §4.4 daily-limit rule, written from the
spec's own words (effective limit, rolling window), to be compared with
the source-derived `ComplianceEnforcement.checkDailyLimit`. -/
def checkDailyLimitSpec (st : ComplianceEnforcement) (account : Addr)
    (amount now : Nat) : Bool :=
  let status := st.accountStatuses account
  let limit := if 0 < status.dailyLimit then status.dailyLimit else st.defaultDailyLimit
  if now ≥ status.lastResetTimestamp + 86400 then decide (amount > limit)
  else decide (status.dailySpent + amount > limit)

/-! ## Concrete states used in witnesses and counterexamples -/

/-- Registering a data source on a fresh oracle (id and post-state). -/
def srcReg : SourceId × ComplianceOracle :=
  ComplianceOracle.init.registerDataSource "OFAC" "https://sanctions.example"  10

/-- Sanctioning address 1 through the registered source
(flag write plus forced CRITICAL/100 risk write). -/
def sanctioned1 : ComplianceOracle × RiskRegistry :=
  (ComplianceOracle.sanctionAddress srcReg.2 RiskRegistry.init 9 1 srcReg.1
    "Sanctioned entity" 20).getD (ComplianceOracle.init, RiskRegistry.init)

/-- Enforcement state where account 1 is whitelisted. -/
def enfWhitelisted1 : ComplianceEnforcement :=
  ComplianceEnforcement.init.whitelistAccount 1

/-- Whitelist-then-freeze on account 1: both flags end up set. -/
def enfWlFrozen1 : ComplianceEnforcement :=
  (enfWhitelisted1.freezeAccount 9 1 "Critical risk detected" 50).getD
    ComplianceEnforcement.init

/-- Freeze-only on account 1 (no whitelist). -/
def enfFrozen1 : ComplianceEnforcement :=
  (ComplianceEnforcement.init.freezeAccount 9 1 "Critical risk detected" 50).getD
    ComplianceEnforcement.init

/-- Registry state after `assessRisk(1, MEDIUM, 55, ...)` on a fresh
registry. -/
def regMedium1 : RiskRegistry :=
  (RiskRegistry.init.assessRisk 5 1 .MEDIUM 55 "Suspicious pattern detected" 0).getD
    RiskRegistry.init

/-- First analysis of transfer id 42 (amount 100, unflagged). -/
def monA : TransactionMonitor × RiskRegistry :=
  (TransactionMonitor.init.analyzeTransaction ComplianceOracle.init
      RiskRegistry.init 9 42 1 2 100 .NORMAL 10 "first analysis" 30).getD
    (TransactionMonitor.init, RiskRegistry.init)

/-- Second analysis under the same transfer id 42 (amount 200). -/
def monB : TransactionMonitor × RiskRegistry :=
  (monA.1.analyzeTransaction ComplianceOracle.init monA.2 9 42 1 2 200 .NORMAL
      10 "second analysis" 31).getD
    (TransactionMonitor.init, RiskRegistry.init)

/-- A flagged analysis on a fresh monitor: pattern STRUCTURING, score 80,
sender 1, receiver 2 (not sanctioned). -/
def monFlagged : TransactionMonitor × RiskRegistry :=
  (TransactionMonitor.init.analyzeTransaction ComplianceOracle.init
      RiskRegistry.init 9 77 1 2 500 .STRUCTURING 80 "structuring detected" 40).getD
    (TransactionMonitor.init, RiskRegistry.init)

/-- NFT state after creating report 1 (DRAFT). -/
def nftDraft : RegulatoryNFT :=
  ((RegulatoryNFT.init.createReport 7 .SUSPICIOUS_ACTIVITY 1 "QmTest123" 5 100).getD
    (0, RegulatoryNFT.init)).2

/-- Report 1 after submission. -/
def nftSubmitted : RegulatoryNFT :=
  (nftDraft.submitReport 7 1).getD RegulatoryNFT.init

/-- Report 1 after approval. -/
def nftApproved : RegulatoryNFT :=
  (nftSubmitted.reviewReport 8 1 true 200).getD RegulatoryNFT.init

/-- Report 1 after sealing. -/
def nftSealed : RegulatoryNFT :=
  (nftApproved.sealReport 1).getD RegulatoryNFT.init

/-- Delayed transaction created at time 1000 (id and post-state). -/
def delayedA : DelayedTxId × ComplianceEnforcement :=
  ComplianceEnforcement.init.createDelayedTransaction 1 2 50 [] 1000

/-- The delayed transaction after approval. -/
def delayedApproved : ComplianceEnforcement :=
  (delayedA.2.approveDelayedTransaction 7 delayedA.1).getD
    ComplianceEnforcement.init

/-- A second `createDelayedTransaction` with the same sender, receiver,
amount and timestamp as `delayedA`, issued after the approval. -/
def delayedB : DelayedTxId × ComplianceEnforcement :=
  delayedApproved.createDelayedTransaction 1 2 50 [] 1000

/-- Enforcement state with account 1's daily limit set to 100. -/
def enfLimit100 : ComplianceEnforcement :=
  ComplianceEnforcement.init.setDailyLimit 1 100

/-- `recordSpending(1, 95)` at time 100000 on `enfLimit100`. -/
def enfSpent95 : ComplianceEnforcement :=
  enfLimit100.recordSpending 1 95 100000

/-! ## Claims -/

/-- C1: `checkTransaction` evaluates its checks in a strict
first-match-wins order — disabled enforcement, sender whitelist, sender
freeze, receiver freeze, sender sanction, receiver sanction, sender
CRITICAL, receiver CRITICAL, sender HIGH, daily limit, allow — returning
the verdict of the first match (proved as equality with the spec-worded
precedence list), and a whitelisted sender is allowed with
`(true, NONE, "Whitelisted")` whatever the rest of the state, including a
frozen, sanctioned or CRITICAL-risk sender. -/
theorem checkTransaction_first_match_precedence
    (st : ComplianceEnforcement) (orc : ComplianceOracle) (reg : RiskRegistry)
    (fromAddr toAddr : Addr) (amount now : Nat) :
    st.checkTransaction orc reg fromAddr toAddr amount now =
      checkTransactionSpec st orc reg fromAddr toAddr amount now ∧
    (st.enforcementEnabled = true →
      (st.accountStatuses fromAddr).whitelisted = true →
      st.checkTransaction orc reg fromAddr toAddr amount now =
        (true, .NONE, "Whitelisted")) := by
  constructor
  · unfold ComplianceEnforcement.checkTransaction checkTransactionSpec
    cases h : st.enforcementEnabled <;> simp [h]
  · intro h1 h2
    unfold ComplianceEnforcement.checkTransaction
    simp [h1, h2]

/-- C1 witness: a whitelisted sender that is simultaneously sanctioned
and at CRITICAL risk is still allowed with reason "Whitelisted". -/
theorem checkTransaction_first_match_precedence_witness :
    (sanctioned1.1.isSanctioned 1 = true) ∧
    (sanctioned1.2.getRiskLevel 1 = .CRITICAL) ∧
    (enfWhitelisted1.checkTransaction sanctioned1.1 sanctioned1.2 1 2 5 60 =
      (true, .NONE, "Whitelisted")) :=
  ⟨by decide, by decide,
   (checkTransaction_first_match_precedence enfWhitelisted1 sanctioned1.1
      sanctioned1.2 1 2 5 60).2 (by decide) (by decide)⟩

/-- C2 counterexample: `assessRisk` stores the caller-supplied level
verbatim — `assessRisk(1, NONE, 100, "r")` succeeds, after which
`getRiskLevel` is `NONE` although the score→level table maps 100 to
`CRITICAL`; level/score consistency is not enforced on this write. -/
theorem assessRisk_level_not_derived_counterexample :
    (RiskRegistry.init.assessRisk 5 1 .NONE 100 "r" 0).isSome = true ∧
    ((RiskRegistry.init.assessRisk 5 1 .NONE 100 "r" 0).getD
        RiskRegistry.init).getRiskScore 1 = 100 ∧
    ((RiskRegistry.init.assessRisk 5 1 .NONE 100 "r" 0).getD
        RiskRegistry.init).getRiskLevel 1 = .NONE ∧
    scoreToLevel 100 = .CRITICAL ∧
    RiskLevel.NONE ≠ RiskLevel.CRITICAL := by
  decide

/-- C2 (amended): after a successful `assessRisk(account, level, s, reason)`,
`getRiskScore` returns `s` and `getRiskLevel` returns the caller-supplied
`level` — `assessRisk` does not derive the level from the score and does
not enforce score/level consistency.  The fixed score→level table (with
its boundaries 9/10, 39/40, 69/70, 89/90) is applied only by
`updateRiskScore`, which recomputes the level from the new score. -/
theorem assessRisk_stores_caller_level :
    (∀ (reg : RiskRegistry) (sender target : Addr) (level : RiskLevel)
       (score : Nat) (reason : String) (now : Nat) (reg2 : RiskRegistry),
       reg.assessRisk sender target level score reason now = some reg2 →
       reg2.getRiskScore target = score ∧ reg2.getRiskLevel target = level) ∧
    (scoreToLevel 9 = .NONE ∧ scoreToLevel 10 = .LOW ∧
     scoreToLevel 39 = .LOW ∧ scoreToLevel 40 = .MEDIUM ∧
     scoreToLevel 69 = .MEDIUM ∧ scoreToLevel 70 = .HIGH ∧
     scoreToLevel 89 = .HIGH ∧ scoreToLevel 90 = .CRITICAL) ∧
    (∀ (reg : RiskRegistry) (target : Addr) (newScore now : Nat)
       (reg2 : RiskRegistry),
       reg.updateRiskScore target newScore now = some reg2 →
       reg2.getRiskScore target = newScore ∧
       reg2.getRiskLevel target = scoreToLevel newScore) := by
  refine ⟨?_, by decide, ?_⟩
  · intro reg sender target level score reason now reg2 h
    unfold RiskRegistry.assessRisk at h
    split at h
    · exact absurd h (by simp)
    · split at h
      · exact absurd h (by simp)
      · split at h
        · exact absurd h (by simp)
        · have h2 := Option.some.inj h
          subst h2
          constructor
          · unfold RiskRegistry.getRiskScore RiskRegistry.assessRiskWrite
            simp
          · unfold RiskRegistry.getRiskLevel RiskRegistry.assessRiskWrite
            simp
  · intro reg target newScore now reg2 h
    unfold RiskRegistry.updateRiskScore at h
    split at h
    · exact absurd h (by simp)
    · simp only [] at h
      split at h
      · exact absurd h (by simp)
      · rename_i hactive
        have ha : (reg.riskAssessments target).active = true := by
          simpa using hactive
        split at h
        · rename_i hne
          have h2 := Option.some.inj h
          subst h2
          constructor
          · unfold RiskRegistry.getRiskScore
            simp [ha]
          · unfold RiskRegistry.getRiskLevel
            simp [ha]
        · rename_i hne
          have h2 := Option.some.inj h
          subst h2
          have hlv : (reg.riskAssessments target).level = scoreToLevel newScore := by
            by_contra hc
            exact hne (fun hx => hc hx.symm)
          constructor
          · unfold RiskRegistry.getRiskScore
            simp [ha]
          · unfold RiskRegistry.getRiskLevel
            simp [ha, hlv]

/-- C2 witness: `assessRisk(1, MEDIUM, 55, ...)` on a fresh registry
succeeds, and afterwards the score reads back 55 and the level MEDIUM. -/
theorem assessRisk_stores_caller_level_witness :
    regMedium1.getRiskScore 1 = 55 ∧ regMedium1.getRiskLevel 1 = .MEDIUM :=
  assessRisk_stores_caller_level.1 RiskRegistry.init 5 1 .MEDIUM 55
    "Suspicious pattern detected" 0 regMedium1 (by rfl)

/-- C3 counterexample: whitelist account 1, then freeze it —
`freezeAccount` succeeds and the account is frozen, yet
`checkTransaction(1, 2, 5)` still returns allowed (`true`), not
`(false, FREEZE, …)`: the whitelist check precedes the freeze check. -/
theorem frozen_sender_whitelisted_counterexample :
    (enfWhitelisted1.freezeAccount 9 1 "Critical risk detected" 50).isSome = true ∧
    (enfWlFrozen1.accountStatuses 1).frozen = true ∧
    enfWlFrozen1.checkTransaction ComplianceOracle.init RiskRegistry.init 1 2 5 60 =
      (true, .NONE, "Whitelisted") := by
  decide

/-- C3 (amended): if enforcement is enabled and the sender is frozen and
NOT whitelisted, `checkTransaction` returns
`(false, FREEZE, "Account frozen")` for every receiver and amount;
the whitelist check is evaluated before the freeze check, so a frozen but
whitelisted sender is instead allowed.  `freezeAccount` itself leaves the
whitelist flag untouched. -/
theorem frozen_sender_denied_freeze :
    (∀ (enf : ComplianceEnforcement) (orc : ComplianceOracle)
       (reg : RiskRegistry) (A B x now : Nat),
       enf.enforcementEnabled = true →
       (enf.accountStatuses A).frozen = true →
       (enf.accountStatuses A).whitelisted = false →
       enf.checkTransaction orc reg A B x now =
         (false, .FREEZE, "Account frozen")) ∧
    (∀ (enf : ComplianceEnforcement) (sender account : Addr)
       (reason : String) (now : Nat) (enf2 : ComplianceEnforcement),
       enf.freezeAccount sender account reason now = some enf2 →
       (enf2.accountStatuses account).frozen = true ∧
       (enf2.accountStatuses account).whitelisted =
         (enf.accountStatuses account).whitelisted) := by
  constructor
  · intro enf orc reg A B x now hen hfr hwl
    unfold ComplianceEnforcement.checkTransaction
    simp [hen, hfr, hwl]
  · intro enf sender account reason now enf2 h
    unfold ComplianceEnforcement.freezeAccount at h
    split at h
    · exact absurd h (by simp)
    · have h2 := Option.some.inj h
      subst h2
      simp

/-- C3 witness: account 1 frozen (and not whitelisted) is denied with
action FREEZE, for a sample receiver and amount. -/
theorem frozen_sender_denied_freeze_witness :
    enfFrozen1.checkTransaction ComplianceOracle.init RiskRegistry.init 1 2 5 60 =
      (false, .FREEZE, "Account frozen") :=
  frozen_sender_denied_freeze.1 enfFrozen1 ComplianceOracle.init
    RiskRegistry.init 1 2 5 60 (by decide) (by decide) (by decide)

/-- C4: whenever `sanctionAddress(account, sourceId, reason)` succeeds
(it requires a non-zero account and an active data source), the sanction
flag is set and the synchronous `assessRisk(account, CRITICAL, 100, reason)`
write leaves `getRiskLevel = CRITICAL` and `getRiskScore = 100`,
regardless of the account's prior risk or compliance state. -/
theorem sanctionAddress_forces_critical
    (orc : ComplianceOracle) (reg : RiskRegistry) (sender target : Addr)
    (srcId : SourceId) (reason : String) (now : Nat)
    (orc2 : ComplianceOracle) (reg2 : RiskRegistry)
    (h : orc.sanctionAddress reg sender target srcId reason now =
      some (orc2, reg2)) :
    orc2.isSanctioned target = true ∧
    reg2.getRiskLevel target = .CRITICAL ∧
    reg2.getRiskScore target = 100 := by
  unfold ComplianceOracle.sanctionAddress at h
  split at h
  · exact absurd h (by simp)
  · split at h
    · exact absurd h (by simp)
    · rw [Option.map_eq_some'] at h
      obtain ⟨regMid, hassess, hpair⟩ := h
      have horc : orc2 = orc.setSanctionFlag target := by
        have := congrArg Prod.fst hpair
        simpa using this.symm
      have hreg : reg2 = regMid := by
        have := congrArg Prod.snd hpair
        simpa using this.symm
      subst horc
      subst hreg
      refine ⟨?_, ?_⟩
      · unfold ComplianceOracle.isSanctioned ComplianceOracle.setSanctionFlag
        simp
      · unfold RiskRegistry.assessRisk at hassess
        split at hassess
        · exact absurd hassess (by simp)
        · split at hassess
          · exact absurd hassess (by simp)
          · split at hassess
            · exact absurd hassess (by simp)
            · have h2 := Option.some.inj hassess
              subst h2
              unfold RiskRegistry.getRiskLevel RiskRegistry.getRiskScore
                RiskRegistry.assessRiskWrite
              simp

/-- C4 witness: sanctioning address 1 through a freshly registered data
source succeeds and yields the sanction flag plus CRITICAL/100 risk. -/
theorem sanctionAddress_forces_critical_witness :
    sanctioned1.1.isSanctioned 1 = true ∧
    sanctioned1.2.getRiskLevel 1 = .CRITICAL ∧
    sanctioned1.2.getRiskScore 1 = 100 :=
  sanctionAddress_forces_critical srcReg.2 RiskRegistry.init 9 1 srcReg.1
    "Sanctioned entity" 20 sanctioned1.1 sanctioned1.2 (by rfl)

/-- C5: sealing is only reachable from status `APPROVED` on an unsealed
report (so `sealReport` fails on a DRAFT report), and once a report is
sealed every mutating call on it — `submitReport`, `reviewReport`,
`updateReportData`, `sealReport` — reverts, leaving the stored report
unchanged (a revert is `none` and produces no state change). -/
theorem sealed_report_immutable :
    (∀ (st : RegulatoryNFT) (tokenId : Nat) (st2 : RegulatoryNFT),
       st.sealReport tokenId = some st2 →
       (st.reports tokenId).status = .APPROVED ∧
       (st.reports tokenId).isSealed = false) ∧
    (∀ (st : RegulatoryNFT) (sender tokenId : Nat),
       (st.reports tokenId).isSealed = true →
       st.submitReport sender tokenId = none ∧
       (∀ (approved : Bool) (now : Nat),
         st.reviewReport sender tokenId approved now = none) ∧
       (∀ (newHash : String) (newDigest : Nat),
         st.updateReportData sender tokenId newHash newDigest = none) ∧
       st.sealReport tokenId = none) := by
  constructor
  · intro st tokenId st2 h
    simp only [RegulatoryNFT.sealReport] at h
    split at h
    · exact absurd h (by simp)
    · rename_i hstat
      split at h
      · exact absurd h (by simp)
      · rename_i hseal
        exact ⟨not_not.mp hstat, by simpa using hseal⟩
  · intro st sender tokenId hsealed
    refine ⟨?_, ?_, ?_, ?_⟩
    · simp [RegulatoryNFT.submitReport, hsealed]
    · intro approved now
      simp [RegulatoryNFT.reviewReport, hsealed]
    · intro newHash newDigest
      simp [RegulatoryNFT.updateReportData, hsealed]
    · simp [RegulatoryNFT.sealReport, hsealed]

/-- C5 witness: the full lifecycle on a concrete report — sealing a DRAFT
report fails; after submit → review(approve), sealing succeeds from the
APPROVED unsealed state; and on the sealed report every mutating call
returns `none`. -/
theorem sealed_report_immutable_witness :
    nftDraft.sealReport 1 = none ∧
    (nftApproved.reports 1).status = .APPROVED ∧
    (nftApproved.reports 1).isSealed = false ∧
    (nftSealed.reports 1).isSealed = true ∧
    nftSealed.submitReport 7 1 = none ∧
    nftSealed.reviewReport 8 1 true 300 = none ∧
    nftSealed.updateReportData 7 1 "QmChanged" 6 = none ∧
    nftSealed.sealReport 1 = none := by
  have hseal := sealed_report_immutable.1 nftApproved 1 nftSealed (by rfl)
  have hmut := sealed_report_immutable.2 nftSealed 7 1 (by decide)
  have hmut2 := sealed_report_immutable.2 nftSealed 8 1 (by decide)
  exact ⟨by rfl, hseal.1, hseal.2, by decide, hmut.1, hmut2.2.1 true 300,
    hmut.2.2.1 "QmChanged" 6, hmut.2.2.2⟩

/-- C6 counterexample: two successful `analyzeTransaction` calls with the
same transfer id 42 — the second call (amount 200) overwrites the stored
analysis written by the first (amount 100), so the record is not
write-once. -/
theorem analysis_write_once_counterexample :
    (TransactionMonitor.init.analyzeTransaction ComplianceOracle.init
        RiskRegistry.init 9 42 1 2 100 .NORMAL 10 "first analysis" 30).isSome
      = true ∧
    (monA.1.analyzeTransaction ComplianceOracle.init monA.2 9 42 1 2 200
        .NORMAL 10 "second analysis" 31).isSome = true ∧
    (monA.1.transactionAnalyses 42).amount = 100 ∧
    (monB.1.transactionAnalyses 42).amount = 200 ∧
    monA.1.transactionAnalyses 42 ≠ monB.1.transactionAnalyses 42 := by
  decide

/-- C6 (amended): the stored `TransactionAnalysis` under a transfer id is
last-write-wins, not write-once: every successful `analyzeTransaction`
call stores the analysis of its own arguments under its `txHash`,
overwriting whatever was stored there before, and leaves the analyses of
all other transfer ids unchanged. -/
theorem analysis_last_write_wins
    (st : TransactionMonitor) (orc : ComplianceOracle) (reg : RiskRegistry)
    (self : Addr) (txHash : TxId) (fromAddr toAddr : Addr) (amount : Nat)
    (pattern : PatternType) (anomalyScore : Nat) (notes : String) (now : Nat)
    (m2 : TransactionMonitor) (r2 : RiskRegistry)
    (h : st.analyzeTransaction orc reg self txHash fromAddr toAddr amount
      pattern anomalyScore notes now = some (m2, r2)) :
    ((m2.transactionAnalyses txHash).txHash = txHash ∧
     (m2.transactionAnalyses txHash).fromAddr = fromAddr ∧
     (m2.transactionAnalyses txHash).toAddr = toAddr ∧
     (m2.transactionAnalyses txHash).amount = amount ∧
     (m2.transactionAnalyses txHash).pattern = pattern ∧
     (m2.transactionAnalyses txHash).anomalyScore = anomalyScore ∧
     (m2.transactionAnalyses txHash).timestamp = now ∧
     (m2.transactionAnalyses txHash).notes = notes) ∧
    (∀ otherId : TxId, otherId ≠ txHash →
      m2.transactionAnalyses otherId = st.transactionAnalyses otherId) := by
  unfold TransactionMonitor.analyzeTransaction at h
  split at h
  · exact absurd h (by simp)
  · simp only [] at h
    split at h
    · rw [Option.map_eq_some'] at h
      obtain ⟨regMid, hupd, hpair⟩ := h
      injection hpair with hfst hsnd
      subst hfst
      constructor
      · refine ⟨?_, ?_, ?_, ?_, ?_, ?_, ?_, ?_⟩ <;>
          simp [TransactionMonitor.createAlert, TransactionMonitor.writeAnalysis]
      · intro otherId hne
        simp [TransactionMonitor.createAlert, TransactionMonitor.writeAnalysis, hne]
    · injection h with h2
      injection h2 with hfst hsnd
      subst hfst
      constructor
      · refine ⟨?_, ?_, ?_, ?_, ?_, ?_, ?_, ?_⟩ <;>
          simp [TransactionMonitor.writeAnalysis]
      · intro otherId hne
        simp [TransactionMonitor.writeAnalysis, hne]

/-- C6 witness: applying the last-write-wins theorem to the concrete
second analysis of transfer id 42. -/
theorem analysis_last_write_wins_witness :
    (monB.1.transactionAnalyses 42).amount = 200 ∧
    (monB.1.transactionAnalyses 42).notes = "second analysis" :=
  have h := analysis_last_write_wins monA.1 ComplianceOracle.init monA.2 9 42
    1 2 200 .NORMAL 10 "second analysis" 31 monB.1 monB.2 (by rfl)
  ⟨h.1.2.2.2.1, h.1.2.2.2.2.2.2.2⟩

/-- C7: whenever a successful `analyzeTransaction` call is flagged
(`anomalyScore ≥ highRiskThreshold` or `pattern ≠ NORMAL`), it increments
the global flagged-transaction counter by one, creates the next `Alert`
(targeting the sender, with the computed severity), and writes the
sender's risk as the integer average `(currentSenderScore + anomalyScore) / 2`
re-levelled through the score→level table — except that when the receiver
is sanctioned, the second, later registry write forces the sender to
CRITICAL with score 100, overriding the just-computed average. -/
theorem flagged_analysis_effects
    (st : TransactionMonitor) (orc : ComplianceOracle) (reg : RiskRegistry)
    (self : Addr) (txHash : TxId) (fromAddr toAddr : Addr) (amount : Nat)
    (pattern : PatternType) (anomalyScore : Nat) (notes : String) (now : Nat)
    (m2 : TransactionMonitor) (r2 : RiskRegistry)
    (h : st.analyzeTransaction orc reg self txHash fromAddr toAddr amount
      pattern anomalyScore notes now = some (m2, r2))
    (hflag : st.highRiskThreshold ≤ anomalyScore ∨ pattern ≠ PatternType.NORMAL) :
    m2.flaggedTransactionCount = st.flaggedTransactionCount + 1 ∧
    m2.alertCounter = st.alertCounter + 1 ∧
    m2.alerts (st.alertCounter + 1) =
      { id := st.alertCounter + 1, target := fromAddr, pattern := pattern,
        severity := st.calculateSeverity anomalyScore pattern,
        description := notes, timestamp := now, resolved := false,
        resolver := 0 } ∧
    (if orc.isSanctioned toAddr then
       r2.getRiskScore fromAddr = 100 ∧ r2.getRiskLevel fromAddr = .CRITICAL
     else
       r2.getRiskScore fromAddr = (reg.getRiskScore fromAddr + anomalyScore) / 2 ∧
       r2.getRiskLevel fromAddr =
         scoreToRiskLevel ((reg.getRiskScore fromAddr + anomalyScore) / 2)) := by
  unfold TransactionMonitor.analyzeTransaction at h
  split at h
  · exact absurd h (by simp)
  · simp only [] at h
    split at h
    · rw [Option.map_eq_some'] at h
      obtain ⟨regMid, hupd, hpair⟩ := h
      injection hpair with hfst hsnd
      subst hfst
      subst hsnd
      refine ⟨?_, ?_, ?_, ?_⟩
      · simp [TransactionMonitor.createAlert, TransactionMonitor.writeAnalysis]
      · simp [TransactionMonitor.createAlert, TransactionMonitor.writeAnalysis]
      · simp [TransactionMonitor.createAlert, TransactionMonitor.writeAnalysis]
      · unfold TransactionMonitor.updateRiskScores at hupd
        simp only [] at hupd
        rw [Option.bind_eq_some] at hupd
        obtain ⟨reg1, hass1, hrest⟩ := hupd
        unfold RiskRegistry.assessRisk at hass1
        split at hass1
        · exact absurd hass1 (by simp)
        · split at hass1
          · exact absurd hass1 (by simp)
          · split at hass1
            · exact absurd hass1 (by simp)
            · have hreg1 := Option.some.inj hass1
              subst hreg1
              cases horc : orc.isSanctioned toAddr
              · rw [horc] at hrest
                simp only [Bool.false_eq_true, if_false] at hrest
                have hr2 := Option.some.inj hrest
                subst hr2
                simp only [horc, Bool.false_eq_true, if_false]
                constructor
                · unfold RiskRegistry.getRiskScore RiskRegistry.assessRiskWrite
                  simp
                · unfold RiskRegistry.getRiskLevel RiskRegistry.assessRiskWrite
                  simp
              · rw [horc] at hrest
                simp only [if_true] at hrest
                unfold RiskRegistry.assessRisk at hrest
                split at hrest
                · exact absurd hrest (by simp)
                · split at hrest
                  · exact absurd hrest (by simp)
                  · split at hrest
                    · exact absurd hrest (by simp)
                    · have hr2 := Option.some.inj hrest
                      subst hr2
                      simp only [horc, if_true]
                      constructor
                      · unfold RiskRegistry.getRiskScore
                          RiskRegistry.assessRiskWrite
                        simp
                      · unfold RiskRegistry.getRiskLevel
                          RiskRegistry.assessRiskWrite
                        simp
    · rename_i hnotflag
      exact absurd hflag (by simpa using hnotflag)

/-- C7 witness: a flagged STRUCTURING analysis (score 80) on a fresh
system bumps the flagged counter and alert counter to 1 and leaves the
sender at the damped average score 40 (MEDIUM), the receiver being
unsanctioned. -/
theorem flagged_analysis_effects_witness :
    monFlagged.1.flaggedTransactionCount = 1 ∧
    monFlagged.1.alertCounter = 1 ∧
    monFlagged.2.getRiskScore 1 = 40 ∧
    monFlagged.2.getRiskLevel 1 = .MEDIUM := by
  have h := flagged_analysis_effects TransactionMonitor.init
    ComplianceOracle.init RiskRegistry.init 9 77 1 2 500 .STRUCTURING 80
    "structuring detected" 40 monFlagged.1 monFlagged.2 (by rfl)
    (Or.inl (by decide))
  have hrisk := h.2.2.2
  simp only [show ComplianceOracle.init.isSanctioned 2 = false from rfl,
    Bool.false_eq_true, if_false] at hrisk
  exact ⟨h.1, h.2.1, hrisk.1, hrisk.2⟩

/-- C8: for every delayed-transaction record, `executeDelayedTransaction`
fails while unapproved, fails while already executed, fails after
approval while `now < delayUntil`, and succeeds exactly once when the
record is approved, unexecuted and `delayUntil ≤ now` — after which every
further execution attempt fails; `approveDelayedTransaction` fails on an
already-executed or already-approved record (both one-way transitions). -/
theorem delayed_transaction_lifecycle
    (enf : ComplianceEnforcement) (txId : DelayedTxId) (now : Nat)
    (sender : Addr) :
    ((enf.delayedTransactions txId).approved = false →
      enf.executeDelayedTransaction txId now = none) ∧
    ((enf.delayedTransactions txId).executed = true →
      enf.executeDelayedTransaction txId now = none) ∧
    ((enf.delayedTransactions txId).approved = true →
      now < (enf.delayedTransactions txId).delayUntil →
      enf.executeDelayedTransaction txId now = none) ∧
    ((enf.delayedTransactions txId).approved = true →
      (enf.delayedTransactions txId).executed = false →
      (enf.delayedTransactions txId).delayUntil ≤ now →
      ∃ enf2 : ComplianceEnforcement,
        enf.executeDelayedTransaction txId now = some enf2 ∧
        (enf2.delayedTransactions txId).executed = true ∧
        (∀ now2 : Nat, enf2.executeDelayedTransaction txId now2 = none)) ∧
    ((enf.delayedTransactions txId).executed = true →
      enf.approveDelayedTransaction sender txId = none) ∧
    ((enf.delayedTransactions txId).approved = true →
      enf.approveDelayedTransaction sender txId = none) := by
  refine ⟨?_, ?_, ?_, ?_, ?_, ?_⟩
  · intro hap
    simp [ComplianceEnforcement.executeDelayedTransaction, hap]
  · intro hex
    simp [ComplianceEnforcement.executeDelayedTransaction, hex]
  · intro hap hnow
    simp [ComplianceEnforcement.executeDelayedTransaction, hap, hnow]
  · intro hap hex hnow
    refine ⟨{ enf with
      delayedTransactions := fun i =>
        if i = txId then { enf.delayedTransactions txId with executed := true }
        else enf.delayedTransactions i }, ?_, ?_, ?_⟩
    · simp [ComplianceEnforcement.executeDelayedTransaction, hap, hex,
        Nat.not_lt.mpr hnow]
    · simp
    · intro now2
      simp [ComplianceEnforcement.executeDelayedTransaction, hap]
  · intro hex
    simp [ComplianceEnforcement.approveDelayedTransaction, hex]
  · intro hap
    simp [ComplianceEnforcement.approveDelayedTransaction, hap]

/-- C8 witness: the concrete delayed transaction created at time 1000
(`delayUntil = 87400`): execution fails before approval, fails after
approval while still delayed, succeeds at `delayUntil`, fails on a second
attempt, and a second approval also fails. -/
theorem delayed_transaction_lifecycle_witness :
    delayedA.2.executeDelayedTransaction delayedA.1 90000 = none ∧
    delayedApproved.executeDelayedTransaction delayedA.1 1500 = none ∧
    (delayedApproved.executeDelayedTransaction delayedA.1 87400).isSome = true ∧
    ((delayedApproved.executeDelayedTransaction delayedA.1 87400).getD
        ComplianceEnforcement.init).executeDelayedTransaction delayedA.1 99999
      = none ∧
    delayedApproved.approveDelayedTransaction 7 delayedA.1 = none := by
  obtain ⟨e2, he, hex2, hsecond⟩ :=
    (delayed_transaction_lifecycle delayedApproved delayedA.1 87400 7).2.2.2.1
      (by decide) (by decide) (by decide)
  refine ⟨?_, ?_, ?_, ?_, ?_⟩
  · exact (delayed_transaction_lifecycle delayedA.2 delayedA.1 90000 7).1
      (by decide)
  · exact (delayed_transaction_lifecycle delayedApproved delayedA.1 1500 7).2.2.1
      (by decide) (by decide)
  · rw [he]
    rfl
  · rw [he]
    exact hsecond 99999
  · exact (delayed_transaction_lifecycle delayedApproved delayedA.1 0 7).2.2.2.2.2
      (by decide)

/-- C9: the source daily-limit predicate coincides with the spec-worded
rule (effective limit = own `dailyLimit` when positive else the global
default; after the rolling window only the amount itself is compared,
otherwise `dailySpent + amount`), and concretely: with limit 100 and
`recordSpending(1, 95)`, `checkTransaction(1, 2, 10)` in the same window
is denied with LIMIT, while the same call after the window has elapsed is
allowed. -/
theorem daily_limit_window :
    (∀ (st : ComplianceEnforcement) (account : Addr) (amount now : Nat),
      st.checkDailyLimit account amount now =
        checkDailyLimitSpec st account amount now) ∧
    enfSpent95.checkTransaction ComplianceOracle.init RiskRegistry.init
      1 2 10 100000 = (false, .LIMIT, "Daily limit exceeded") ∧
    enfSpent95.checkTransaction ComplianceOracle.init RiskRegistry.init
      1 2 10 (100000 + 86400) = (true, .NONE, "") := by
  refine ⟨?_, by decide, by decide⟩
  intro st account amount now
  rfl

/-- C10: `createDelayedTransaction` derives the returned id solely from
`(from, to, amount, timestamp)` (the hash pre-image, in this model the id
itself), so a second call with the same sender, receiver and amount at
the same timestamp returns the same id, overwrites the stored record —
resetting its `approved` and `executed` flags to `false` even after an
approval — and appends a duplicate id to the sender's index. -/
theorem delayed_txid_collision_overwrites :
    (∀ (st : ComplianceEnforcement) (fromAddr toAddr : Addr) (amount : Nat)
       (data : List Nat) (now : Nat),
       (st.createDelayedTransaction fromAddr toAddr amount data now).1 =
         (fromAddr, toAddr, amount, now)) ∧
    (delayedA.2.approveDelayedTransaction 7 delayedA.1).isSome = true ∧
    (delayedApproved.delayedTransactions delayedA.1).approved = true ∧
    delayedB.1 = delayedA.1 ∧
    (delayedB.2.delayedTransactions delayedA.1).approved = false ∧
    (delayedB.2.delayedTransactions delayedA.1).executed = false ∧
    delayedB.2.accountDelayedTxs 1 = [delayedA.1, delayedA.1] := by
  exact ⟨fun st fromAddr toAddr amount data now => rfl,
    by decide, by decide, by decide, by decide, by decide, by decide⟩
